import Mathlib

/-!
Shallow embedding of `src/scripts/calc_renta.py` and verification of the
specification's claims about it.

The program fetches a CPI index series (provider), computes a compounded
rental adjustment over the last four published monthly values
(`calcular_ajuste`), and prints the result (`main`).  Numeric values are
modelled as exact rationals (`ℚ`); the dataframe handed to the core is a
list of rows `(fecha, ipc_mensual)`; console output is modelled as a list
of print events; Python exceptions are modelled with `Except`.
-/

namespace CalcRenta

/-- One row of the dataframe built in `obtener_datos_ipc` (lines 28-32):
`fecha` (the period, an orderable key; month granularity) and
`ipc_mensual` (the raw published value). -/
structure IndexPeriod where
  fecha : ℕ
  ipc_mensual : ℚ
deriving DecidableEq, Repr

/-- `sort_values(by='fecha', ascending=False)` comparison: `a` before `b`. -/
def fechaDesc (a b : IndexPeriod) : Prop := b.fecha ≤ a.fecha

/-- `sort_values(by='fecha', ascending=True)` comparison: `a` before `b`. -/
def fechaAsc (a b : IndexPeriod) : Prop := a.fecha ≤ b.fecha

instance : DecidableRel fechaDesc :=
  fun a b => inferInstanceAs (Decidable (b.fecha ≤ a.fecha))

instance : DecidableRel fechaAsc :=
  fun a b => inferInstanceAs (Decidable (a.fecha ≤ b.fecha))

instance : IsTotal IndexPeriod fechaDesc := ⟨fun a b => le_total b.fecha a.fecha⟩

instance : IsTrans IndexPeriod fechaDesc := ⟨fun _ _ _ h1 h2 => le_trans h2 h1⟩

instance : IsTotal IndexPeriod fechaAsc := ⟨fun a b => le_total a.fecha b.fecha⟩

instance : IsTrans IndexPeriod fechaAsc := ⟨fun _ _ _ h1 h2 => le_trans h1 h2⟩

/-- Embeds `obtener_datos_ipc` (lines 12-37).  The HTTP fetch and JSON/number
parsing are provider I/O outside the core; the computational content handed
onward is line 35: the rows sorted descending by `fecha` (most recent
first), whatever order they arrived in. -/
def obtener_datos_ipc (raw : List IndexPeriod) : List IndexPeriod :=
  List.insertionSort fechaDesc raw

/-- Lines 52-55 of `calcular_ajuste`: `ultimos_4_meses = df_ipc.head(4)`,
then re-sorted ascending by `fecha` for the chronological display. -/
def ultimos4Meses (df_ipc : List IndexPeriod) : List IndexPeriod :=
  List.insertionSort fechaAsc (df_ipc.take 4)

/-- Failure kinds.  `invalidAmount`, `dataUnavailable` and `invalidRate` are
the error kinds named by the specification's failure table; `nameError`
models the Python `NameError` the interpreter raises when an unbound name is
evaluated, carrying the offending name. -/
inductive CalcError where
  | invalidAmount : CalcError
  | dataUnavailable : CalcError
  | invalidRate : IndexPeriod → CalcError
  | nameError : String → CalcError
deriving DecidableEq, Repr

/-- Console output events of `calcular_ajuste`, one per `print` call. -/
inductive PrintEvent where
  /-- line 59: the "DETALLE DEL CALCULO" title. -/
  | tituloDetalle : PrintEvent
  /-- lines 60, 62, 91: a `"-" * 60` separator line. -/
  | separador : PrintEvent
  /-- line 61: the FECHA / IPC MENSUAL / FACTOR column header. -/
  | cabeceraColumnas : PrintEvent
  /-- line 89: one per-period line (month, shown percentage, factor).
  Unreachable in the source: line 72 raises before line 89 runs. -/
  | lineaPeriodo : ℕ → ℚ → ℚ → PrintEvent
deriving DecidableEq, Repr

/-- The four header lines printed unconditionally before the loop
(lines 59-62). -/
def cabeceraEventos : List PrintEvent :=
  [PrintEvent.tituloDetalle, PrintEvent.separador, PrintEvent.cabeceraColumnas,
    PrintEvent.separador]

/-- Line 83: `pct_real = coeficiente if coeficiente < 2 else coeficiente / 100`,
the value-format normalization, embedded exactly as written.  (At runtime
this line is unreachable: line 72 raises `NameError` first.) -/
def pct_real (coeficiente : ℚ) : ℚ :=
  if coeficiente < 2 then coeficiente else coeficiente / 100

/-- Line 85: `factor_dia = 1 + pct_real`.  (Also unreachable at runtime.) -/
def factor_dia (coeficiente : ℚ) : ℚ := 1 + pct_real coeficiente

/-- Embeds one iteration of the `for` body (lines 64-89).  Line 69 binds
`coeficiente = inflacion_mensual`; line 72 then evaluates `1 + coeficientes`,
and the name `coeficientes` is bound nowhere in the program (the bound
variable is `coeficiente`), so the interpreter raises `NameError` at that
point.  Lines 73-89 of the body (including the `pct_real` normalization, the
second factor update and the per-period print) are therefore unreachable. -/
def cuerpoBucle (factor_acumulado : ℚ) (row : IndexPeriod) :
    Except CalcError (ℚ × PrintEvent) :=
  let coeficiente := row.ipc_mensual
  Except.error (CalcError.nameError "coeficientes")

/-- The `for _, row in ultimos_4_meses.iterrows()` loop (lines 64-89):
threads `factor_acumulado` through the body, collecting the per-period
print events, and propagates a raised exception. -/
def buclePeriodos (factor_acumulado : ℚ) :
    List IndexPeriod → List PrintEvent × Except CalcError ℚ
  | [] => ([], Except.ok factor_acumulado)
  | row :: rest =>
    match cuerpoBucle factor_acumulado row with
    | Except.error e => ([], Except.error e)
    | Except.ok (f, ev) =>
      match buclePeriodos f rest with
      | (evs, r) => (ev :: evs, r)

/-- Embeds `calcular_ajuste` (lines 46-96).  Returns the console events
together with either the returned pair `(nuevo_monto,
incremento_total_pct)` (lines 93-96) or the exception raised.  Lines 59-62
print the four header lines before the loop; line 91 prints one more
separator after the loop; `factor_acumulado` is seeded at `1.0` (line 57).
Note the source performs no validation of `monto_actual` and no emptiness
check on `df_ipc`. -/
def calcular_ajuste (monto_actual : ℚ) (df_ipc : List IndexPeriod) :
    List PrintEvent × Except CalcError (ℚ × ℚ) :=
  match buclePeriodos 1 (ultimos4Meses df_ipc) with
  | (evs, Except.error e) => (cabeceraEventos ++ evs, Except.error e)
  | (evs, Except.ok factor_acumulado) =>
    (cabeceraEventos ++ evs ++ [PrintEvent.separador],
      Except.ok (monto_actual * factor_acumulado, (factor_acumulado - 1) * 100))

/-- `main`'s data path (lines 109-112): fetch the series (rows in whatever
order the upstream API supplies), then compute the adjustment. -/
def pipeline (monto_actual : ℚ) (raw : List IndexPeriod) :
    List PrintEvent × Except CalcError (ℚ × ℚ) :=
  calcular_ajuste monto_actual (obtener_datos_ipc raw)

/-! ### Helper lemmas shared by the claim theorems -/

theorem length_ultimos4 (df : List IndexPeriod) :
    (ultimos4Meses df).length = min 4 df.length := by
  simp [ultimos4Meses, List.length_insertionSort]

theorem ultimos4_eq_nil_iff (df : List IndexPeriod) :
    ultimos4Meses df = [] ↔ df = [] := by
  rw [← List.length_eq_zero, length_ultimos4, ← List.length_eq_zero (l := df)]
  omega

theorem buclePeriodos_eq (f : ℚ) (l : List IndexPeriod) :
    buclePeriodos f l =
      ([], if l = [] then Except.ok f
        else Except.error (CalcError.nameError "coeficientes")) := by
  cases l with
  | nil => rfl
  | cons x xs => simp [buclePeriodos, cuerpoBucle]

theorem obtener_datos_ne_nil {raw : List IndexPeriod} (h : raw ≠ []) :
    obtener_datos_ipc raw ≠ [] := by
  intro hnil
  apply h
  rw [← List.length_eq_zero] at hnil ⊢
  rwa [obtener_datos_ipc, List.length_insertionSort] at hnil

theorem calcular_ajuste_eq (monto : ℚ) (df : List IndexPeriod) :
    calcular_ajuste monto df =
      if df = [] then
        (cabeceraEventos ++ [PrintEvent.separador], Except.ok (monto, 0))
      else (cabeceraEventos, Except.error (CalcError.nameError "coeficientes")) := by
  rcases eq_or_ne df [] with h | h
  · subst h
    simp [calcular_ajuste, buclePeriodos_eq, ultimos4Meses]
  · have h4 : ultimos4Meses df ≠ [] := by
      rw [ne_eq, ultimos4_eq_nil_iff]; exact h
    simp [calcular_ajuste, buclePeriodos_eq, h4, h]

/-! ### Claim theorems -/

/-- C1: the spec requires `new_amount = base_amount * Π (1 + normalized_rate)`
over a 4-period window with rates above `-1`; the code instead raises
`NameError` (unbound name `coeficientes`, line 72) on the first loop
iteration and never produces a `new_amount`.  This theorem evaluates the
embedded code at a positive base and a valid 4-period window. -/
theorem ajuste_compuesto_nameError :
    (calcular_ajuste 1000 (obtener_datos_ipc
      [⟨1, 1/10⟩, ⟨2, 1/5⟩, ⟨3, 3/10⟩, ⟨4, 2/5⟩])).2 =
      Except.error (CalcError.nameError "coeficientes") := by
  have hne : obtener_datos_ipc [⟨1, 1/10⟩, ⟨2, 1/5⟩, ⟨3, 3/10⟩, ⟨4, 2/5⟩] ≠ [] :=
    obtener_datos_ne_nil (by simp)
  rw [calcular_ajuste_eq, if_neg hne]

/-- C2: the spec's end-to-end example (base 100000, ascending raw values
0.04, 0.05, 0.03, 0.06) should give `new_amount ≈ 119247.5`; the embedded
code raises `NameError` at that very input instead. -/
theorem ejemplo_base_100000_nameError :
    (calcular_ajuste 100000 (obtener_datos_ipc
      [⟨1, 1/25⟩, ⟨2, 1/20⟩, ⟨3, 3/100⟩, ⟨4, 3/50⟩])).2 =
      Except.error (CalcError.nameError "coeficientes") := by
  have hne : obtener_datos_ipc [⟨1, 1/25⟩, ⟨2, 1/20⟩, ⟨3, 3/100⟩, ⟨4, 3/50⟩] ≠ [] :=
    obtener_datos_ne_nil (by simp)
  rw [calcular_ajuste_eq, if_neg hne]

/-- C3: the normalization expression of line 83 keeps a raw value below 2 as
a fraction and divides a raw value of 2 or more by 100; boundary values
1.99 and 2.01, and the discontinuity at exactly 2. -/
theorem normalizacion_umbral :
    (∀ c : ℚ, c < 2 → pct_real c = c) ∧
    (∀ c : ℚ, 2 ≤ c → pct_real c = c / 100) ∧
    pct_real (199/100) = 199/100 ∧
    pct_real (201/100) = 201/10000 ∧
    pct_real 2 = 2 / 100 := by
  refine ⟨fun c h => ?_, fun c h => ?_,
    by norm_num [pct_real], by norm_num [pct_real], by norm_num [pct_real]⟩
  · simp [pct_real, h]
  · simp [pct_real, not_lt.mpr h]

/-- Witness for C3 at the concrete raw values 1/2 and 3. -/
theorem normalizacion_umbral_witness :
    pct_real (1/2) = 1/2 ∧ pct_real 3 = 3 / 100 :=
  ⟨normalizacion_umbral.1 (1/2) (by norm_num),
   normalizacion_umbral.2.1 3 (by norm_num)⟩

/-- C4 counterexample: with `base_amount = -500` the code raises no
`InvalidAmount`: a one-period series gives `NameError` (like any other
amount does) and the empty series returns `(-500, 0)` successfully. -/
theorem monto_negativo_aceptado :
    (calcular_ajuste (-500) [⟨1, 1/25⟩]).2 =
      Except.error (CalcError.nameError "coeficientes") ∧
    (calcular_ajuste (-500) [⟨1, 1/25⟩]).2 ≠
      Except.error CalcError.invalidAmount ∧
    (calcular_ajuste (-500) ([] : List IndexPeriod)).2 =
      Except.ok (-500, 0) := by
  simp [calcular_ajuste_eq]

/-- C4 amended: the code performs no validation of the amount, so
`InvalidAmount` is never raised, for non-positive and positive amounts
alike. -/
theorem nunca_invalidAmount :
    ∀ (monto : ℚ) (df : List IndexPeriod),
      (calcular_ajuste monto df).2 ≠ Except.error CalcError.invalidAmount := by
  intro monto df
  rcases eq_or_ne df [] with h | h <;> simp [calcular_ajuste_eq, h]

/-- Witness for C4's amended theorem at a concrete negative amount. -/
theorem nunca_invalidAmount_witness :
    (calcular_ajuste (-7) [⟨1, 1/50⟩]).2 ≠
      Except.error CalcError.invalidAmount :=
  nunca_invalidAmount (-7) [⟨1, 1/50⟩]

/-- C5 counterexample: a window containing raw value -1.5 (normalized rate
-1.5 ≤ -1) does not produce `InvalidRate`; the code raises `NameError`
before any rate is examined. -/
theorem tasa_invalida_sin_validacion :
    (calcular_ajuste 100 [⟨1, -3/2⟩]).2 =
      Except.error (CalcError.nameError "coeficientes") ∧
    (calcular_ajuste 100 [⟨1, -3/2⟩]).2 ≠
      Except.error (CalcError.invalidRate ⟨1, -3/2⟩) := by
  simp [calcular_ajuste_eq]

/-- C5 amended: the code contains no rate validation, so `InvalidRate` is
never raised for any input whatsoever. -/
theorem nunca_invalidRate :
    ∀ (monto : ℚ) (df : List IndexPeriod) (p : IndexPeriod),
      (calcular_ajuste monto df).2 ≠
        Except.error (CalcError.invalidRate p) := by
  intro monto df p
  rcases eq_or_ne df [] with h | h <;> simp [calcular_ajuste_eq, h]

/-- Witness for C5's amended theorem at a concrete rate of -3. -/
theorem nunca_invalidRate_witness :
    (calcular_ajuste 50 [⟨2, -3⟩]).2 ≠
      Except.error (CalcError.invalidRate ⟨2, -3⟩) :=
  nunca_invalidRate 50 [⟨2, -3⟩] ⟨2, -3⟩

/-- C6 counterexample: the empty series does not fail with
`DataUnavailable`; the code returns the base amount with a 0% increase. -/
theorem serie_vacia_devuelve_resultado :
    (calcular_ajuste 100 ([] : List IndexPeriod)).2 = Except.ok (100, 0) ∧
    (calcular_ajuste 100 ([] : List IndexPeriod)).2 ≠
      Except.error CalcError.dataUnavailable := by
  simp [calcular_ajuste_eq]

/-- C6 amended: an empty series is not rejected — it returns
`(base_amount, 0)` — and `DataUnavailable` is never raised for any input. -/
theorem serie_vacia_sin_dataUnavailable :
    (∀ monto : ℚ, (calcular_ajuste monto ([] : List IndexPeriod)).2 =
      Except.ok (monto, 0)) ∧
    ∀ (monto : ℚ) (df : List IndexPeriod),
      (calcular_ajuste monto df).2 ≠
        Except.error CalcError.dataUnavailable := by
  constructor
  · intro monto
    rw [calcular_ajuste_eq, if_pos rfl]
  · intro monto df
    rcases eq_or_ne df [] with h | h <;> simp [calcular_ajuste_eq, h]

/-- Witness for C6's amended theorem at concrete inputs. -/
theorem serie_vacia_sin_dataUnavailable_witness :
    (calcular_ajuste 42 ([] : List IndexPeriod)).2 = Except.ok (42, 0) ∧
    (calcular_ajuste 42 [⟨5, 1⟩]).2 ≠
      Except.error CalcError.dataUnavailable :=
  ⟨serie_vacia_sin_dataUnavailable.1 42,
   serie_vacia_sin_dataUnavailable.2 42 [⟨5, 1⟩]⟩

/-- C7 counterexample: a 2-period series does not make the computation
succeed with coverage 2 — it raises `NameError` and returns nothing. -/
theorem dos_periodos_no_devuelve :
    (calcular_ajuste 100 [⟨1, 1/25⟩, ⟨2, 1/20⟩]).2 =
      Except.error (CalcError.nameError "coeficientes") := by
  simp [calcular_ajuste_eq]

/-- C7 amended: the selected window does have exactly `min 4 n` periods and
they are the most recent ones (every window period's `fecha` is at least
every dropped period's `fecha`), but for any non-empty series the
computation raises `NameError` instead of succeeding, and the returned
pair carries no coverage count. -/
theorem ventana_minima_pero_falla (monto : ℚ) (raw : List IndexPeriod)
    (h : raw ≠ []) :
    (ultimos4Meses (obtener_datos_ipc raw)).length = min 4 raw.length ∧
    (∀ p ∈ ultimos4Meses (obtener_datos_ipc raw),
      ∀ q ∈ (obtener_datos_ipc raw).drop 4, q.fecha ≤ p.fecha) ∧
    (calcular_ajuste monto (obtener_datos_ipc raw)).2 =
      Except.error (CalcError.nameError "coeficientes") := by
  have hlen : (obtener_datos_ipc raw).length = raw.length := by
    simp [obtener_datos_ipc, List.length_insertionSort]
  refine ⟨?_, ?_, ?_⟩
  · rw [length_ultimos4, hlen]
  · intro p hp q hq
    have hs : List.Sorted fechaDesc (obtener_datos_ipc raw) :=
      List.sorted_insertionSort fechaDesc raw
    have hp4 : p ∈ (obtener_datos_ipc raw).take 4 :=
      (List.perm_insertionSort fechaAsc
        ((obtener_datos_ipc raw).take 4)).mem_iff.mp hp
    have hsp : List.Pairwise fechaDesc
        ((obtener_datos_ipc raw).take 4 ++ (obtener_datos_ipc raw).drop 4) := by
      rw [List.take_append_drop]; exact hs
    exact (List.pairwise_append.mp hsp).2.2 p hp4 q hq
  · have hne : obtener_datos_ipc raw ≠ [] := by
      intro hnil
      apply h
      rw [← List.length_eq_zero, ← hlen, hnil, List.length_nil]
    rw [calcular_ajuste_eq, if_neg hne]

/-- Witness for C7's amended theorem at a concrete 2-period series. -/
theorem ventana_minima_pero_falla_witness :
    (ultimos4Meses (obtener_datos_ipc [⟨1, 1/25⟩, ⟨2, 1/20⟩])).length =
      min 4 ([⟨1, 1/25⟩, ⟨2, 1/20⟩] : List IndexPeriod).length ∧
    (calcular_ajuste 100 (obtener_datos_ipc [⟨1, 1/25⟩, ⟨2, 1/20⟩])).2 =
      Except.error (CalcError.nameError "coeficientes") :=
  ⟨(ventana_minima_pero_falla 100 [⟨1, 1/25⟩, ⟨2, 1/20⟩] (by simp)).1,
   (ventana_minima_pero_falla 100 [⟨1, 1/25⟩, ⟨2, 1/20⟩] (by simp)).2.2⟩

/-- C8: on the spec's out-of-order series [Mar: 0.10, Jan: 0.05, Feb: 0.02,
Apr: 0.03] the pipeline does select and order the window Jan, Feb, Mar, Apr
(oldest first), but it raises `NameError` on the first loop iteration
instead of compounding the factors in that order. -/
theorem orden_cronologico_pero_falla :
    ultimos4Meses (obtener_datos_ipc
      [⟨3, 1/10⟩, ⟨1, 1/20⟩, ⟨2, 1/50⟩, ⟨4, 3/100⟩]) =
      [⟨1, 1/20⟩, ⟨2, 1/50⟩, ⟨3, 1/10⟩, ⟨4, 3/100⟩] ∧
    (pipeline 100 [⟨3, 1/10⟩, ⟨1, 1/20⟩, ⟨2, 1/50⟩, ⟨4, 3/100⟩]).2 =
      Except.error (CalcError.nameError "coeficientes") := by
  constructor
  · rfl
  · have hne : obtener_datos_ipc
        [⟨3, 1/10⟩, ⟨1, 1/20⟩, ⟨2, 1/50⟩, ⟨4, 3/100⟩] ≠ [] :=
      obtener_datos_ne_nil (by simp)
    show (calcular_ajuste 100 (obtener_datos_ipc
      [⟨3, 1/10⟩, ⟨1, 1/20⟩, ⟨2, 1/50⟩, ⟨4, 3/100⟩])).2 =
      Except.error (CalcError.nameError "coeficientes")
    rw [calcular_ajuste_eq, if_neg hne]

/-- C9 counterexample: the computation is not free of I/O — it prints the
four header lines (the spec says it performs no I/O). -/
theorem imprime_en_consola :
    (calcular_ajuste 100 [⟨1, 7/100⟩]).1 = cabeceraEventos ∧
    cabeceraEventos ≠ [] := by
  constructor
  · simp [calcular_ajuste_eq]
  · simp [cabeceraEventos]

/-- C9 amended: the computation is deterministic — identical inputs give
identical outcomes — but it always emits console output (at least the four
header print calls), so it is not free of side effects. -/
theorem determinista_pero_con_salida :
    (∀ (monto : ℚ) (df : List IndexPeriod),
      calcular_ajuste monto df = calcular_ajuste monto df) ∧
    ∀ (monto : ℚ) (df : List IndexPeriod),
      (calcular_ajuste monto df).1 ≠ [] := by
  refine ⟨fun _ _ => rfl, fun monto df => ?_⟩
  rcases eq_or_ne df [] with h | h <;>
    simp [calcular_ajuste_eq, h, cabeceraEventos]

/-- Witness for C9's amended theorem at concrete inputs. -/
theorem determinista_pero_con_salida_witness :
    calcular_ajuste 9 [⟨1, 1/4⟩] = calcular_ajuste 9 [⟨1, 1/4⟩] ∧
    (calcular_ajuste 9 [⟨1, 1/4⟩]).1 ≠ [] :=
  ⟨determinista_pero_con_salida.1 9 [⟨1, 1/4⟩],
   determinista_pero_con_salida.2 9 [⟨1, 1/4⟩]⟩

/-- C10: the loop body always raises `NameError` for the unbound name
`coeficientes`, so the computation never returns a result for a non-empty
series; only the empty series reaches the return statement, yielding the
base amount unchanged with a 0% increase. -/
theorem nameError_primera_iteracion (monto : ℚ) (df : List IndexPeriod) :
    (∀ f : ℚ, ∀ row : IndexPeriod,
      cuerpoBucle f row = Except.error (CalcError.nameError "coeficientes")) ∧
    (df ≠ [] → (calcular_ajuste monto df).2 =
      Except.error (CalcError.nameError "coeficientes")) ∧
    (df = [] → (calcular_ajuste monto df).2 = Except.ok (monto, 0)) := by
  refine ⟨fun f row => rfl, fun h => ?_, fun h => ?_⟩
  · rw [calcular_ajuste_eq, if_neg h]
  · rw [calcular_ajuste_eq, if_pos h]

/-- Witness for C10 at a one-period series and at the empty series. -/
theorem nameError_primera_iteracion_witness :
    (calcular_ajuste 100 [⟨1, 3/50⟩]).2 =
      Except.error (CalcError.nameError "coeficientes") ∧
    (calcular_ajuste 100 ([] : List IndexPeriod)).2 =
      Except.ok (100, 0) :=
  ⟨(nameError_primera_iteracion 100 [⟨1, 3/50⟩]).2.1 (by simp),
   (nameError_primera_iteracion 100 []).2.2 rfl⟩

end CalcRenta
